import Mathlib

/-!
Shallow embedding of the content-publish-services HTTP gateway
(Express + Supabase). Each route handler is modelled as a pure function
taking the request body together with the results of the backend
database calls it performs (oracle style: an `Except` per call), and
returning the HTTP response it sends — or the exception it throws —
paired with the list of database effects it issued, in order.
-/

namespace ContentPublish

/-- A JavaScript value, as it appears in JSON request bodies and rows. -/
inductive JsVal where
  | jNull
  | jBool (b : Bool)
  | jNum (n : Int)
  | jStr (s : String)
  | jArr (elems : List JsVal)
  | jObj (fields : List (String × JsVal))

/-- A JavaScript object: an ordered association list of fields. -/
abbrev Obj := List (String × JsVal)

/-- Property access `o[k]`: the first binding of the key, `none` when absent. -/
def getField : Obj → String → Option JsVal
  | [], _ => none
  | (k, v) :: rest, key => if k = key then some v else getField rest key

/-- Rest-destructuring `const \x7b k, ...rest \x7d = o`: `o` without key `k`. -/
def removeField : Obj → String → Obj
  | [], _ => []
  | (k, v) :: rest, key =>
      if k = key then removeField rest key else (k, v) :: removeField rest key

/-- Property assignment `o[k] = v`: replaces in place, appends when absent. -/
def setField : Obj → String → JsVal → Obj
  | [], k, v => [(k, v)]
  | (k0, v0) :: rest, k, v =>
      if k0 = k then (k, v) :: rest else (k0, v0) :: setField rest k v

/-- Property access on an arbitrary value: only objects have fields. -/
def getProp : JsVal → String → Option JsVal
  | .jObj fields, k => getField fields k
  | _, _ => none

/-- The fields of a value when it is an object, `[]` otherwise. -/
def fieldsOf : JsVal → Obj
  | .jObj fields => fields
  | _ => []

/-- JavaScript truthiness of a possibly-absent value (`undefined`, `null`,
`false`, `0` and `""` are falsy). -/
def truthy : Option JsVal → Bool
  | none => false
  | some .jNull => false
  | some (.jBool b) => b
  | some (.jNum n) => n ≠ 0
  | some (.jStr s) => s ≠ ""
  | some (.jArr _) => true
  | some (.jObj _) => true

/-- `Array.isArray(v)` on a possibly-absent value. -/
def isArr : Option JsVal → Bool
  | some (.jArr _) => true
  | _ => false

/-- `Array.isArray(v) && v.length !== 0` on a possibly-absent value. -/
def isNonEmptyArr : Option JsVal → Bool
  | some (.jArr l) => !l.isEmpty
  | _ => false

/-- An error message from the backend client. -/
abbrev ErrMsg := String

/-- A database call issued through the supabase client. -/
inductive DbEff where
  | selectAll (table : String)
  | selectOneById (table : String) (id : String)
  | selectOneByEmail (table : String) (email : Option JsVal)
  | countRows (table : String)
  | insertRows (table : String) (rows : List Obj)
  | updateRows (table : String) (id : Option JsVal) (updates : Obj)
  | deleteById (table : String) (id : String)
  | deleteIn (table : String) (ids : Option JsVal)

/-- The JSON body `\x7b error: msg \x7d` sent on every failure path. -/
structure ErrBody where
  error : String
deriving DecidableEq, Repr

/-- An HTTP response: either an error JSON with a status, or a success
payload with a status. -/
inductive Resp (α : Type) where
  | err (status : Nat) (body : ErrBody)
  | ok (status : Nat) (payload : α)

/-- What a handler invocation does observably: send a response, or throw
(an async rejection that Express 4 does not catch, so no response is sent). -/
inductive Outcome (α : Type) where
  | resp (r : α)
  | thrown (msg : String)

/-! ## User service (src/supabase/functions/user-service/index.js) -/

/-- GET /get-all-users (lines 27-31). -/
def getAllUsers (dbR : Except ErrMsg (List Obj)) :
    Resp (List Obj) × List DbEff :=
  match dbR with
  | .error m => (.err 500 ⟨m⟩, [.selectAll "users"])
  | .ok data => (.ok 200 data, [.selectAll "users"])

/-- GET /get-user/:id (lines 53-58). -/
def getUser (id : String) (dbR : Except ErrMsg Obj) :
    Resp Obj × List DbEff :=
  match dbR with
  | .error m => (.err 404 ⟨m⟩, [.selectOneById "users" id])
  | .ok data => (.ok 200 data, [.selectOneById "users" id])

/-- POST /create-user (lines 86-110). `bcrypt.hash(·, 10)` is the parameter
`hash`; hashing a truthy non-string models bcrypt's thrown type error. -/
def createUser (hash : String → String) (body : Obj)
    (countR : Except ErrMsg (Option Nat)) (insertR : Except ErrMsg (List Obj)) :
    Outcome (Resp (List Obj)) × List DbEff :=
  let password := getField body "password"
  let rest := removeField body "password"
  if !truthy password then
    (.resp (.err 400 ⟨"Password is required."⟩), [])
  else
    match password with
    | some (.jStr p) =>
      let hashedPassword := hash p
      match countR with
      | .error m => (.resp (.err 500 ⟨m⟩), [.countRows "users"])
      | .ok count =>
        if count.getD 0 + 1 > 10 then
          (.resp (.err 400 ⟨"Total users cannot exceed 10."⟩), [.countRows "users"])
        else
          match insertR with
          | .error m =>
            (.resp (.err 400 ⟨m⟩),
             [.countRows "users",
              .insertRows "users" [rest ++ [("password", .jStr hashedPassword)]]])
          | .ok data =>
            (.resp (.ok 201 data),
             [.countRows "users",
              .insertRows "users" [rest ++ [("password", .jStr hashedPassword)]]])
    | _ => (.thrown "data must be a string", [])

/-- The `users.map` + `Promise.all` hashing step of POST /create-users
(lines 147-154): throws as soon as some element lacks a truthy password,
otherwise yields each element with its password replaced by its hash. -/
def hashUsers (hash : String → String) : List JsVal → Except ErrMsg (List Obj)
  | [] => .ok []
  | u :: rest =>
    let pw := getProp u "password"
    if !truthy pw then .error "Password is required for all users."
    else
      match pw with
      | some (.jStr p) =>
        match hashUsers hash rest with
        | .error m => .error m
        | .ok tail =>
            .ok ((removeField (fieldsOf u) "password"
                  ++ [("password", .jStr (hash p))]) :: tail)
      | _ => .error "data must be a string"

/-- POST /create-users (lines 140-172). -/
def createUsers (hash : String → String) (body : JsVal)
    (countR : Except ErrMsg (Option Nat)) (insertR : Except ErrMsg (List Obj)) :
    Outcome (Resp (List Obj)) × List DbEff :=
  match body with
  | .jArr users =>
    match hashUsers hash users with
    | .error m => (.thrown m, [])
    | .ok usersWithHashedPasswords =>
      match countR with
      | .error m => (.resp (.err 500 ⟨m⟩), [.countRows "users"])
      | .ok count =>
        if count.getD 0 + users.length > 10 then
          (.resp (.err 400 ⟨"Total users cannot exceed 10."⟩), [.countRows "users"])
        else
          match insertR with
          | .error m =>
            (.resp (.err 400 ⟨m⟩),
             [.countRows "users", .insertRows "users" usersWithHashedPasswords])
          | .ok data =>
            (.resp (.ok 201 data),
             [.countRows "users", .insertRows "users" usersWithHashedPasswords])
  | _ => (.resp (.err 400 ⟨"Request body must be an array of users."⟩), [])

/-- PUT /update-user (lines 202-219). -/
def updateUser (hash : String → String) (body : Obj)
    (updR : Except ErrMsg (List Obj)) :
    Outcome (Resp (List Obj)) × List DbEff :=
  let id := getField body "id"
  let updateData := removeField body "id"
  if !truthy id then
    (.resp (.err 400 ⟨"User ID is required in the request body."⟩), [])
  else
    let pw := getField updateData "password"
    if truthy pw then
      match pw with
      | some (.jStr p) =>
        let updateData2 := setField updateData "password" (.jStr (hash p))
        match updR with
        | .error m => (.resp (.err 400 ⟨m⟩), [.updateRows "users" id updateData2])
        | .ok data => (.resp (.ok 200 data), [.updateRows "users" id updateData2])
      | _ => (.thrown "data must be a string", [])
    else
      match updR with
      | .error m => (.resp (.err 400 ⟨m⟩), [.updateRows "users" id updateData])
      | .ok data => (.resp (.ok 200 data), [.updateRows "users" id updateData])

/-- DELETE /delete-user/:id (lines 241-246). -/
def deleteUser (id : String) (delR : Except ErrMsg (List Obj)) :
    Resp (List Obj) × List DbEff :=
  match delR with
  | .error m => (.err 400 ⟨m⟩, [.deleteById "users" id])
  | .ok data => (.ok 200 data, [.deleteById "users" id])

/-- DELETE /delete-users (lines 274-279): `body.ids` is forwarded to the
delete call with no validation at all. -/
def deleteUsers (body : Obj) (delR : Except ErrMsg (List Obj)) :
    Resp (List Obj) × List DbEff :=
  let ids := getField body "ids"
  match delR with
  | .error m => (.err 400 ⟨m⟩, [.deleteIn "users" ids])
  | .ok data => (.ok 200 data, [.deleteIn "users" ids])

/-! ## Login service (same file, lines 352-385) -/

/-- A row of the `users` table as the login handler reads it. -/
structure UserRow where
  id : Int
  email : String
  password : String
  first_name : String
  middle_name : String
  last_name : String
  suffix : String
deriving DecidableEq, Repr

/-- The `userData` object built at lines 375-382: the reduced user
projection, as an ordered field list. -/
def loginUserData (user : UserRow) : Obj :=
  [("id", .jNum user.id),
   ("email", .jStr user.email),
   ("first_name", .jStr user.first_name),
   ("middle_name", .jStr user.middle_name),
   ("last_name", .jStr user.last_name),
   ("suffix", .jStr user.suffix)]

/-- The success body `\x7b message, userData \x7d` of POST /login. -/
structure LoginOk where
  message : String
  userData : Obj

/-- POST /login (lines 352-385). `bcrypt.compare` is the parameter
`compare`; comparing a truthy non-string password models its thrown error. -/
def login (compare : String → String → Bool) (body : Obj)
    (dbR : Except ErrMsg UserRow) :
    Outcome (Resp LoginOk) × List DbEff :=
  let email := getField body "email"
  let password := getField body "password"
  if !(truthy email && truthy password) then
    (.resp (.err 400 ⟨"Email and password are required."⟩), [])
  else
    match dbR with
    | .error _ =>
        (.resp (.err 401 ⟨"Invalid email or password."⟩),
         [.selectOneByEmail "users" email])
    | .ok user =>
      match password with
      | some (.jStr p) =>
        if compare p user.password then
          (.resp (.ok 200 ⟨"Login successful", loginUserData user⟩),
           [.selectOneByEmail "users" email])
        else
          (.resp (.err 401 ⟨"Invalid email or password."⟩),
           [.selectOneByEmail "users" email])
      | _ => (.thrown "data and hash must be strings", [.selectOneByEmail "users" email])

/-! ## Announcement service (same file, lines 411-627) -/

/-- A row of the `announcements` table (fields the handlers touch). -/
structure AnnouncementRow where
  id : Int
  title : String
  content : String
  created_at : Int
deriving DecidableEq, Repr

/-- An announcement row as returned by get-all-announcements: the row's
fields plus the derived `expired` string. -/
structure AnnouncementOut where
  id : Int
  title : String
  content : String
  created_at : Int
  expired : String
deriving DecidableEq, Repr

/-- `Math.floor((now - createdAt) / (1000*60*60*24))` at line 419, with the
timestamps in integer milliseconds; `Int.fdiv` is floor division, matching
`Math.floor` also for negative differences. -/
def diffDays (now createdAt : Int) : Int :=
  Int.fdiv (now - createdAt) (1000 * 60 * 60 * 24)

/-- The per-row map at lines 417-424: spread the row and add
`expired: diffDays > 15 ? 'true' : 'false'`. -/
def processAnnouncement (now : Int) (item : AnnouncementRow) : AnnouncementOut :=
  { id := item.id, title := item.title, content := item.content,
    created_at := item.created_at,
    expired := if diffDays now item.created_at > 15 then "true" else "false" }

/-- GET /get-all-announcements (lines 411-427). -/
def getAllAnnouncements (now : Int) (dbR : Except ErrMsg (List AnnouncementRow)) :
    Resp (List AnnouncementOut) × List DbEff :=
  match dbR with
  | .error m => (.err 500 ⟨m⟩, [.selectAll "announcements"])
  | .ok data => (.ok 200 (data.map (processAnnouncement now)), [.selectAll "announcements"])

/-- POST /create-announcement (lines 490-513). -/
def createAnnouncement (body : Obj)
    (countR : Except ErrMsg (Option Nat)) (insertR : Except ErrMsg (List Obj)) :
    Resp (List Obj) × List DbEff :=
  let newItem := body
  match countR with
  | .error m => (.err 500 ⟨m⟩, [.countRows "announcements"])
  | .ok count =>
    if count.getD 0 + 1 > 5 then
      (.err 400 ⟨"Total announcements already reached its limit."⟩,
       [.countRows "announcements"])
    else
      match insertR with
      | .error m =>
          (.err 400 ⟨m⟩,
           [.countRows "announcements", .insertRows "announcements" [newItem]])
      | .ok data =>
          (.ok 201 data,
           [.countRows "announcements", .insertRows "announcements" [newItem]])

/-- DELETE /delete-announcements (lines 614-627). -/
def deleteAnnouncements (body : Obj) (delR : Except ErrMsg (List Obj)) :
    Resp (List Obj) × List DbEff :=
  let ids := getField body "ids"
  if !isNonEmptyArr ids then
    (.err 400 ⟨"Request body must include an array of ids."⟩, [])
  else
    match delR with
    | .error m => (.err 400 ⟨m⟩, [.deleteIn "announcements" ids])
    | .ok data => (.ok 200 data, [.deleteIn "announcements" ids])

/-! ## Content service (src/unnamed/part_000, lines 222-409) -/

/-- POST /create-post (lines 281-300). -/
def createPost (body : Obj)
    (countR : Except ErrMsg (Option Nat)) (insertR : Except ErrMsg (List Obj)) :
    Resp (List Obj) × List DbEff :=
  let newItem := body
  match countR with
  | .error m => (.err 500 ⟨m⟩, [.countRows "content_posts"])
  | .ok count =>
    if count.getD 0 + 1 > 5 then
      (.err 400 ⟨"Total content posts already reached its limit."⟩,
       [.countRows "content_posts"])
    else
      match insertR with
      | .error m =>
          (.err 400 ⟨m⟩,
           [.countRows "content_posts", .insertRows "content_posts" [newItem]])
      | .ok data =>
          (.ok 201 data,
           [.countRows "content_posts", .insertRows "content_posts" [newItem]])

/-- DELETE /delete-posts (lines 395-409). -/
def deletePosts (body : Obj) (delR : Except ErrMsg (List Obj)) :
    Resp (List Obj) × List DbEff :=
  let ids := getField body "ids"
  if !isNonEmptyArr ids then
    (.err 400 ⟨"Request body must include an array of ids."⟩, [])
  else
    match delR with
    | .error m => (.err 400 ⟨m⟩, [.deleteIn "content_posts" ids])
    | .ok data => (.ok 200 data, [.deleteIn "content_posts" ids])

/-! ## Registered-email service (src/unnamed/part_000, lines 57-196) -/

/-- POST /register (lines 113-136). -/
def register (body : Obj)
    (countR : Except ErrMsg (Option Nat)) (insertR : Except ErrMsg (List Obj)) :
    Resp (List Obj) × List DbEff :=
  match getField body "email" with
  | none => (.err 400 ⟨"Email is required"⟩, [])
  | some ev =>
    if !truthy (some ev) then (.err 400 ⟨"Email is required"⟩, [])
    else
      match countR with
      | .error m => (.err 500 ⟨m⟩, [.countRows "registered_emails"])
      | .ok count =>
        if count.getD 0 + 1 > 60 then
          (.err 400 ⟨"Total registered emails already reached its limit."⟩,
           [.countRows "registered_emails"])
        else
          match insertR with
          | .error m =>
              (.err 400 ⟨m⟩,
               [.countRows "registered_emails",
                .insertRows "registered_emails" [[("email", ev)]]])
          | .ok data =>
              (.ok 201 data,
               [.countRows "registered_emails",
                .insertRows "registered_emails" [[("email", ev)]]])

/-- DELETE /delete-emails (lines 190-196): only `Array.isArray` is checked,
an empty array is accepted. -/
def deleteEmails (body : Obj) (delR : Except ErrMsg (List Obj)) :
    Resp (List Obj) × List DbEff :=
  let ids := getField body "ids"
  if !isArr ids then
    (.err 400 ⟨"Body must be \x7b ids: [...] \x7d"⟩, [])
  else
    match delR with
    | .error m => (.err 400 ⟨m⟩, [.deleteIn "registered_emails" ids])
    | .ok data => (.ok 200 data, [.deleteIn "registered_emails" ids])

/-! ## Route tables (every registered route, by service file) -/

/-- An HTTP method. -/
inductive Method where
  | get | post | put | delete
deriving DecidableEq, Repr

/-- A registered Express route: method and path pattern. -/
structure Route where
  method : Method
  path : String
deriving DecidableEq, Repr

/-- Routes of the user service (index.js lines 27-279). -/
def userRoutes : List Route :=
  [⟨.get, "/get-all-users"⟩, ⟨.get, "/get-user/:id"⟩,
   ⟨.post, "/create-user"⟩, ⟨.post, "/create-users"⟩,
   ⟨.put, "/update-user"⟩,
   ⟨.delete, "/delete-user/:id"⟩, ⟨.delete, "/delete-users"⟩]

/-- Routes of the auth (login) service (index.js lines 352-385). -/
def authRoutes : List Route := [⟨.post, "/login"⟩]

/-- Routes of the announcement service (index.js lines 411-627). -/
def announcementRoutes : List Route :=
  [⟨.get, "/get-all-announcements"⟩, ⟨.get, "/get-announcement/:id"⟩,
   ⟨.post, "/create-announcement"⟩, ⟨.put, "/update-announcement"⟩,
   ⟨.delete, "/delete-announcement/:id"⟩, ⟨.delete, "/delete-announcements/"⟩]

/-- Routes of the content service (part_000 lines 222-409); note the
source registers the get-by-id path without a leading slash. -/
def contentRoutes : List Route :=
  [⟨.get, "/get-all-contents"⟩, ⟨.get, "get-content/:id"⟩,
   ⟨.post, "/create-post"⟩, ⟨.put, "/update-post"⟩,
   ⟨.delete, "/delete-post/:id"⟩, ⟨.delete, "/delete-posts"⟩]

/-- Routes of the registered-email service (part_000 lines 57-196). -/
def registeredEmailRoutes : List Route :=
  [⟨.get, "/get-all-registered-emails"⟩, ⟨.get, "/get-registered-email/:id"⟩,
   ⟨.post, "/register"⟩,
   ⟨.delete, "/delete-email/:id"⟩, ⟨.delete, "/delete-emails"⟩]

/-- The router mounts of part_000 lines 24-28. -/
def mounts : List (String × List Route) :=
  [("/v1/users", userRoutes), ("/v1/content", contentRoutes),
   ("/v1/announcements", announcementRoutes),
   ("/v1/registered-emails", registeredEmailRoutes), ("/v1/auth", authRoutes)]

/-- Whether a route path carries a path parameter (contains a colon). -/
def hasIdParam (r : Route) : Bool := r.path.data.any (fun c => c = ':')

/-- The six operation shapes of the spec, read off a route's method and
whether its path takes an id parameter. -/
def isGetAll (r : Route) : Bool := r.method = .get && !hasIdParam r
def isGetById (r : Route) : Bool := r.method = .get && hasIdParam r
def isCreate (r : Route) : Bool := r.method = .post
def isUpdateById (r : Route) : Bool := r.method = .put
def isDeleteById (r : Route) : Bool := r.method = .delete && hasIdParam r
def isBulkDelete (r : Route) : Bool := r.method = .delete && !hasIdParam r

/-- A route group exposes all six operations of the spec. -/
def exposesAllSix (rs : List Route) : Bool :=
  rs.any isGetAll && rs.any isGetById && rs.any isCreate
    && rs.any isUpdateById && rs.any isDeleteById && rs.any isBulkDelete

/-! ## Concrete hash and compare functions used for witnesses -/

/-- A concrete stand-in for `bcrypt.hash(·, 10)` used to instantiate
the hash parameter in witnesses; like bcrypt, it never returns its input. -/
def demoHash (s : String) : String := "$2b$10$" ++ s

/-- A concrete stand-in for `bcrypt.compare` matching `demoHash`. -/
def demoCompare (p h : String) : Bool := h = demoHash p

/-- A concrete user row used by witnesses. -/
def demoUser : UserRow :=
  { id := 1, email := "a@b.c", password := demoHash "pw",
    first_name := "Ann", middle_name := "B", last_name := "Cole", suffix := "Jr" }

/-- A concrete login request body used by witnesses. -/
def demoLoginBody : Obj := [("email", .jStr "a@b.c"), ("password", .jStr "pw")]

/-- A concrete create-user request body used by witnesses. -/
def demoCreateBody : Obj := [("username", .jStr "u1"), ("password", .jStr "pw")]

/-- A concrete register request body used by witnesses. -/
def demoRegisterBody : Obj := [("email", .jStr "e@x.y")]

/-- A concrete create-users array whose second element has no password,
used by witnesses. -/
def demoBadUsersArr : List JsVal :=
  [.jObj [("email", .jStr "a"), ("password", .jStr "pw")],
   .jObj [("email", .jStr "b")]]

/-- A concrete create-users array whose elements all carry passwords,
used by witnesses. -/
def demoGoodUsersArr : List JsVal :=
  [.jObj [("email", .jStr "a"), ("password", .jStr "pw")],
   .jObj [("email", .jStr "b"), ("password", .jStr "pw2")]]

/-! ## Helper lemmas about the object primitives -/

theorem getField_removeField_self (o : Obj) (k : String) :
    getField (removeField o k) k = none := by
  induction o with
  | nil => rfl
  | cons kv rest ih =>
    obtain ⟨k0, v0⟩ := kv
    by_cases h : k0 = k
    · simp [removeField, h, ih]
    · simp [removeField, getField, h, ih]

theorem getField_append_right (l l2 : Obj) (k : String)
    (h : getField l k = none) : getField (l ++ l2) k = getField l2 k := by
  induction l with
  | nil => rfl
  | cons kv rest ih =>
    obtain ⟨k0, v0⟩ := kv
    by_cases hk : k0 = k
    · simp [getField, hk] at h
    · simp [getField, hk] at h ⊢
      exact ih h

theorem getField_setField_self (o : Obj) (k : String) (v : JsVal) :
    getField (setField o k v) k = some v := by
  induction o with
  | nil => simp [setField, getField]
  | cons kv rest ih =>
    obtain ⟨k0, v0⟩ := kv
    by_cases h : k0 = k
    · simp [setField, h, getField]
    · simp [setField, h, getField, ih]

/-- The number of whole elapsed days exceeds 15 exactly when at least
16 days' worth of milliseconds have elapsed. -/
theorem fdiv_day_gt15_iff (a : Int) :
    (15 < Int.fdiv a (1000 * 60 * 60 * 24)) ↔ 16 * 86400000 ≤ a := by
  rw [Int.fdiv_eq_ediv _ (by norm_num : (0:Int) ≤ 1000 * 60 * 60 * 24)]
  constructor
  · intro h
    omega
  · intro h
    omega

theorem hashUsers_length (hash : String → String) :
    ∀ (us : List JsVal) (l : List Obj),
      hashUsers hash us = .ok l → l.length = us.length := by
  intro us
  induction us with
  | nil =>
    intro l h
    simp [hashUsers] at h
    simp [← h]
  | cons u rest ih =>
    intro l h
    simp only [hashUsers] at h
    cases hg : getProp u "password" with
    | none => rw [hg] at h; simp [truthy] at h
    | some v =>
      rw [hg] at h
      cases v with
      | jStr p =>
        by_cases hp : p = ""
        · simp [truthy, hp] at h
        · simp [truthy, hp] at h
          cases hr : hashUsers hash rest with
          | error m => rw [hr] at h; simp at h
          | ok tail =>
            rw [hr] at h
            simp at h
            rw [← h]
            simp [ih tail hr]
      | jNull => simp [truthy] at h
      | jBool b => cases b <;> simp [truthy] at h
      | jNum n =>
        by_cases hn : n = 0
        · simp [truthy, hn] at h
        · simp [truthy, hn] at h
      | jArr es => simp [truthy] at h
      | jObj fs => simp [truthy] at h

theorem hashUsers_ok_all_truthy (hash : String → String) :
    ∀ (us : List JsVal) (l : List Obj), hashUsers hash us = .ok l →
      ∀ u ∈ us, truthy (getProp u "password") = true := by
  intro us
  induction us with
  | nil => intro l _ u hu; cases hu
  | cons u0 rest ih =>
    intro l h u hu
    simp only [hashUsers] at h
    cases ht : truthy (getProp u0 "password") with
    | false => rw [ht] at h; simp at h
    | true =>
      rw [ht] at h
      simp at h
      rcases List.mem_cons.mp hu with rfl | hu
      · exact ht
      · cases hg : getProp u0 "password" with
        | none => rw [hg] at ht; simp [truthy] at ht
        | some v =>
          rw [hg] at h
          cases v with
          | jStr p =>
            cases hr : hashUsers hash rest with
            | error m => rw [hr] at h; simp at h
            | ok tail => exact ih tail hr u hu
          | jNull => simp at h
          | jBool b => simp at h
          | jNum n => simp at h
          | jArr es => simp at h
          | jObj fs => simp at h

/-- Whenever create-user issues an insert, it inserts exactly one row and
the count check has passed. -/
theorem createUser_insert_rows (hash : String → String) (body : Obj)
    (c : Option Nat) (insR : Except ErrMsg (List Obj)) (t : String)
    (rows : List Obj)
    (h : DbEff.insertRows t rows ∈ (createUser hash body (.ok c) insR).2) :
    rows.length = 1 ∧ ¬ (c.getD 0 + 1 > 10) := by
  simp only [createUser] at h
  cases hg : getField body "password" with
  | none => rw [hg] at h; simp [truthy] at h
  | some v =>
    rw [hg] at h
    cases v with
    | jStr p =>
      by_cases hp : p = ""
      · simp [truthy, hp] at h
      · by_cases hgt : c.getD 0 + 1 > 10
        · simp [truthy, hp, hgt] at h
        · refine ⟨?_, hgt⟩
          cases insR <;> simp [truthy, hp, hgt] at h <;> simp [h.2]
    | jNull => simp [truthy] at h
    | jBool b => cases b <;> simp [truthy] at h
    | jNum n =>
      by_cases hn : n = 0
      · simp [truthy, hn] at h
      · simp [truthy, hn] at h
    | jArr es => simp [truthy] at h
    | jObj fs => simp [truthy] at h

/-- Whenever create-users issues an insert, it inserts as many rows as
the request array holds and the count check has passed. -/
theorem createUsers_insert_rows (hash : String → String) (users : List JsVal)
    (c : Option Nat) (insR : Except ErrMsg (List Obj)) (t : String)
    (rows : List Obj)
    (h : DbEff.insertRows t rows
          ∈ (createUsers hash (.jArr users) (.ok c) insR).2) :
    rows.length = users.length ∧ ¬ (c.getD 0 + users.length > 10) := by
  simp only [createUsers] at h
  cases hh : hashUsers hash users with
  | error m => rw [hh] at h; simp at h
  | ok l =>
    rw [hh] at h
    by_cases hgt : c.getD 0 + users.length > 10
    · simp [hgt] at h
    · refine ⟨?_, hgt⟩
      cases insR <;> simp [hgt] at h <;>
        simp [h.2, hashUsers_length hash users l hh]

/-- Whenever create-announcement issues an insert, it inserts one row and
the count check has passed. -/
theorem createAnnouncement_insert_rows (body : Obj) (c : Option Nat)
    (insR : Except ErrMsg (List Obj)) (t : String) (rows : List Obj)
    (h : DbEff.insertRows t rows ∈ (createAnnouncement body (.ok c) insR).2) :
    rows.length = 1 ∧ ¬ (c.getD 0 + 1 > 5) := by
  simp only [createAnnouncement] at h
  by_cases hgt : c.getD 0 + 1 > 5
  · simp [hgt] at h
  · refine ⟨?_, hgt⟩
    cases insR <;> simp [hgt] at h <;> simp [h.2]

/-- Whenever create-post issues an insert, it inserts one row and the
count check has passed. -/
theorem createPost_insert_rows (body : Obj) (c : Option Nat)
    (insR : Except ErrMsg (List Obj)) (t : String) (rows : List Obj)
    (h : DbEff.insertRows t rows ∈ (createPost body (.ok c) insR).2) :
    rows.length = 1 ∧ ¬ (c.getD 0 + 1 > 5) := by
  simp only [createPost] at h
  by_cases hgt : c.getD 0 + 1 > 5
  · simp [hgt] at h
  · refine ⟨?_, hgt⟩
    cases insR <;> simp [hgt] at h <;> simp [h.2]

/-- Whenever register issues an insert, it inserts one row and the count
check has passed. -/
theorem register_insert_rows (body : Obj) (c : Option Nat)
    (insR : Except ErrMsg (List Obj)) (t : String) (rows : List Obj)
    (h : DbEff.insertRows t rows ∈ (register body (.ok c) insR).2) :
    rows.length = 1 ∧ ¬ (c.getD 0 + 1 > 60) := by
  simp only [register] at h
  cases hg : getField body "email" with
  | none => rw [hg] at h; simp at h
  | some ev =>
    rw [hg] at h
    by_cases ht : truthy (some ev) = true
    · simp only [ht] at h
      by_cases hgt : c.getD 0 + 1 > 60
      · simp [hgt] at h
      · refine ⟨?_, hgt⟩
        cases insR <;> simp [hgt] at h <;> simp [h.2]
    · rw [Bool.not_eq_true] at ht
      simp only [ht] at h
      simp at h

/-! ## Claim theorems -/

/-- C1: a login request whose email matches a stored user and whose
password bcrypt-compares equal to the stored hash is answered with status
200 and a user projection holding exactly the fields id, email,
first_name, middle_name, last_name and suffix, with the stored password
hash appearing nowhere in it. -/
theorem login_success_reduced_projection
    (compare : String → String → Bool) (body : Obj) (user : UserRow)
    (e p : String)
    (he : getField body "email" = some (.jStr e)) (hene : e ≠ "")
    (hp : getField body "password" = some (.jStr p)) (hpne : p ≠ "")
    (hcmp : compare p user.password = true) :
    (login compare body (.ok user)).1
      = .resp (.ok 200 ⟨"Login successful", loginUserData user⟩)
    ∧ (loginUserData user).map Prod.fst
      = ["id", "email", "first_name", "middle_name", "last_name", "suffix"]
    ∧ getField (loginUserData user) "password" = none
    ∧ (user.password ∉ [user.email, user.first_name, user.middle_name,
        user.last_name, user.suffix] →
        ∀ kv ∈ loginUserData user, kv.2 ≠ JsVal.jStr user.password) := by
  refine ⟨?_, rfl, rfl, ?_⟩
  · simp [login, he, hp, truthy, hene, hpne, hcmp]
  · intro hne kv hkv
    simp [List.mem_cons] at hne
    obtain ⟨h1, h2, h3, h4, h5⟩ := hne
    simp [loginUserData] at hkv
    rcases hkv with rfl | rfl | rfl | rfl | rfl | rfl
    · simp
    · simp
      exact fun hq => h1 hq.symm
    · simp
      exact fun hq => h2 hq.symm
    · simp
      exact fun hq => h3 hq.symm
    · simp
      exact fun hq => h4 hq.symm
    · simp
      exact fun hq => h5 hq.symm

/-- Witness for C1 at a concrete body, user and compare function. -/
theorem login_success_reduced_projection_witness :
    (login demoCompare demoLoginBody (.ok demoUser)).1
      = .resp (.ok 200 ⟨"Login successful", loginUserData demoUser⟩)
    ∧ (loginUserData demoUser).map Prod.fst
      = ["id", "email", "first_name", "middle_name", "last_name", "suffix"]
    ∧ getField (loginUserData demoUser) "password" = none
    ∧ (demoUser.password ∉ [demoUser.email, demoUser.first_name,
        demoUser.middle_name, demoUser.last_name, demoUser.suffix] →
        ∀ kv ∈ loginUserData demoUser, kv.2 ≠ JsVal.jStr demoUser.password) :=
  login_success_reduced_projection demoCompare demoLoginBody demoUser
    "a@b.c" "pw" rfl (by decide) rfl (by decide) (by decide)

/-- C2 counterexample: with 15 days + 1 hour elapsed since creation, more
than 15 days have elapsed, yet the computed expired flag is "false"
because only whole elapsed days are compared to 15. -/
theorem expired_flag_counterexample :
    ((15 * 86400000 + 3600000 : Int) - (0 : Int) > 15 * 86400000)
    ∧ (processAnnouncement (15 * 86400000 + 3600000)
        { id := 1, title := "t", content := "c", created_at := 0 }).expired
      = "false" := by
  constructor
  · norm_num
  · rfl

/-- C2 amended: every row returned by get-all-announcements carries
expired = "true" exactly when the floor of elapsed days exceeds 15, i.e.
when at least 16 days' worth of milliseconds have elapsed since
created_at, and "false" otherwise. -/
theorem expired_flag_amended (now : Int) (data : List AnnouncementRow) :
    (getAllAnnouncements now (.ok data)).1
      = .ok 200 (data.map (processAnnouncement now))
    ∧ ∀ item : AnnouncementRow,
        ((processAnnouncement now item).expired = "true"
          ↔ 16 * 86400000 ≤ now - item.created_at) := by
  refine ⟨rfl, fun item => ?_⟩
  have hexp : (processAnnouncement now item).expired
      = if diffDays now item.created_at > 15 then "true" else "false" := rfl
  rw [hexp]
  by_cases h : diffDays now item.created_at > 15
  · rw [if_pos h]
    exact iff_of_true rfl ((fdiv_day_gt15_iff (now - item.created_at)).mp h)
  · rw [if_neg h]
    exact iff_of_false (by decide)
      (fun hc => h ((fdiv_day_gt15_iff (now - item.created_at)).mpr hc))

/-- C7 counterexample: neither the auth group nor the registered-emails
group exposes all six operations (auth has only POST /login; registered
emails has no update route). -/
theorem route_groups_counterexample :
    exposesAllSix authRoutes = false
    ∧ exposesAllSix registeredEmailRoutes = false
    ∧ authRoutes.any isUpdateById = false
    ∧ registeredEmailRoutes.any isUpdateById = false := by decide

/-- C7 amended: users, content posts and announcements expose all six
operations; registered emails exposes five of them, lacking update-by-id;
auth exposes only POST /login; all five groups are mounted under the /v1
version prefix. -/
theorem route_groups_amended :
    exposesAllSix userRoutes = true
    ∧ exposesAllSix contentRoutes = true
    ∧ exposesAllSix announcementRoutes = true
    ∧ exposesAllSix registeredEmailRoutes = false
    ∧ exposesAllSix authRoutes = false
    ∧ (registeredEmailRoutes.any isGetAll && registeredEmailRoutes.any isGetById
        && registeredEmailRoutes.any isCreate
        && registeredEmailRoutes.any isDeleteById
        && registeredEmailRoutes.any isBulkDelete) = true
    ∧ authRoutes = [{ method := .post, path := "/login" }]
    ∧ mounts.map Prod.fst
        = ["/v1/users", "/v1/content", "/v1/announcements",
           "/v1/registered-emails", "/v1/auth"] := by decide

/-- C9: an update-user request whose id is absent (or falsy) and a bulk
delete-announcements request whose ids is not a non-empty array are both
answered 400 with no database call issued. -/
theorem validation_rejects_without_db
    (hash : String → String) (body abody : Obj)
    (updR delR : Except ErrMsg (List Obj))
    (hid : truthy (getField body "id") = false)
    (hids : isNonEmptyArr (getField abody "ids") = false) :
    updateUser hash body updR
      = (.resp (.err 400 ⟨"User ID is required in the request body."⟩), [])
    ∧ deleteAnnouncements abody delR
      = (.err 400 ⟨"Request body must include an array of ids."⟩, []) := by
  constructor
  · simp [updateUser, hid]
  · simp [deleteAnnouncements, hids]

/-- Witness for C9 at concrete empty bodies. -/
theorem validation_rejects_without_db_witness :
    truthy (getField ([] : Obj) "id") = false
    ∧ isNonEmptyArr (getField ([] : Obj) "ids") = false
    ∧ updateUser demoHash [] (.ok [])
        = (.resp (.err 400 ⟨"User ID is required in the request body."⟩), []) :=
  ⟨rfl, rfl,
   (validation_rejects_without_db demoHash [] [] (.ok []) (.ok []) rfl rfl).1⟩

/-- C10: bulk delete-users forwards body.ids to the delete call for every
body whatsoever, while the bulk deletes of registered emails, content
posts and announcements reject non-array ids with 400 and no call. -/
theorem bulk_delete_users_no_validation
    (body ebody pbody abody : Obj) (delR : Except ErrMsg (List Obj))
    (hne : isArr (getField ebody "ids") = false)
    (hnp : isNonEmptyArr (getField pbody "ids") = false)
    (hna : isNonEmptyArr (getField abody "ids") = false) :
    (deleteUsers body delR).2 = [DbEff.deleteIn "users" (getField body "ids")]
    ∧ deleteEmails ebody delR
        = (.err 400 ⟨"Body must be \x7b ids: [...] \x7d"⟩, [])
    ∧ deletePosts pbody delR
        = (.err 400 ⟨"Request body must include an array of ids."⟩, [])
    ∧ deleteAnnouncements abody delR
        = (.err 400 ⟨"Request body must include an array of ids."⟩, []) := by
  refine ⟨?_, ?_, ?_, ?_⟩
  · cases delR <;> simp [deleteUsers]
  · simp [deleteEmails, hne]
  · simp [deletePosts, hnp]
  · simp [deleteAnnouncements, hna]

/-- Witness for C10: a numeric (non-array) ids is forwarded verbatim by
delete-users while delete-emails rejects an absent ids. -/
theorem bulk_delete_users_no_validation_witness :
    (deleteUsers [("ids", .jNum 7)] (.ok [])).2
      = [DbEff.deleteIn "users" (some (.jNum 7))]
    ∧ deleteEmails [] (.ok [])
        = (.err 400 ⟨"Body must be \x7b ids: [...] \x7d"⟩, []) := by
  have h := bulk_delete_users_no_validation [("ids", .jNum 7)] [] [] []
    (.ok []) rfl rfl rfl
  exact ⟨h.1, h.2.1⟩

/-- C3 counterexample: a create-user request without a password is
answered 400 and performs no insert even though the current row count
plus one (0 + 1) does not exceed the ceiling of 10, contradicting the
claim's "otherwise the insert is attempted". -/
theorem create_ceiling_counterexample :
    ((0:Nat) + 1 ≤ 10)
    ∧ (createUser demoHash [] (.ok (some 0)) (.ok [])).1
        = .resp (.err 400 ⟨"Password is required."⟩)
    ∧ (createUser demoHash [] (.ok (some 0)) (.ok [])).2 = [] :=
  ⟨by norm_num, rfl, rfl⟩

/-- C3 amended: on a single-item create whose per-route field validation
passes (truthy password for create-user, truthy email for register) and
whose count query succeeds, a count plus one above the ceiling (10 users,
5 announcements, 5 content posts, 60 registered emails) yields 400 with
no insert, and otherwise the insert is attempted. -/
theorem create_ceiling_amended
    (hash : String → String) (bU bA bP bR : Obj)
    (cU cA cP cR : Option Nat)
    (iU iA iP iR : Except ErrMsg (List Obj))
    (p : String) (ev : JsVal)
    (hp : getField bU "password" = some (.jStr p)) (hpne : p ≠ "")
    (hev : getField bR "email" = some ev) (hevt : truthy (some ev) = true) :
    ((cU.getD 0 + 1 > 10 →
        (createUser hash bU (.ok cU) iU).1
          = .resp (.err 400 ⟨"Total users cannot exceed 10."⟩)
        ∧ ∀ t rows, DbEff.insertRows t rows ∉ (createUser hash bU (.ok cU) iU).2)
      ∧ (cU.getD 0 + 1 ≤ 10 →
        DbEff.insertRows "users"
            [removeField bU "password" ++ [("password", .jStr (hash p))]]
          ∈ (createUser hash bU (.ok cU) iU).2))
    ∧ ((cA.getD 0 + 1 > 5 →
        (createAnnouncement bA (.ok cA) iA).1
          = .err 400 ⟨"Total announcements already reached its limit."⟩
        ∧ ∀ t rows, DbEff.insertRows t rows ∉ (createAnnouncement bA (.ok cA) iA).2)
      ∧ (cA.getD 0 + 1 ≤ 5 →
        DbEff.insertRows "announcements" [bA]
          ∈ (createAnnouncement bA (.ok cA) iA).2))
    ∧ ((cP.getD 0 + 1 > 5 →
        (createPost bP (.ok cP) iP).1
          = .err 400 ⟨"Total content posts already reached its limit."⟩
        ∧ ∀ t rows, DbEff.insertRows t rows ∉ (createPost bP (.ok cP) iP).2)
      ∧ (cP.getD 0 + 1 ≤ 5 →
        DbEff.insertRows "content_posts" [bP] ∈ (createPost bP (.ok cP) iP).2))
    ∧ ((cR.getD 0 + 1 > 60 →
        (register bR (.ok cR) iR).1
          = .err 400 ⟨"Total registered emails already reached its limit."⟩
        ∧ ∀ t rows, DbEff.insertRows t rows ∉ (register bR (.ok cR) iR).2)
      ∧ (cR.getD 0 + 1 ≤ 60 →
        DbEff.insertRows "registered_emails" [[("email", ev)]]
          ∈ (register bR (.ok cR) iR).2)) := by
  refine ⟨⟨fun hgt => ?_, fun hle => ?_⟩, ⟨fun hgt => ?_, fun hle => ?_⟩,
    ⟨fun hgt => ?_, fun hle => ?_⟩, ⟨fun hgt => ?_, fun hle => ?_⟩⟩
  · simp [createUser, hp, truthy, hpne, hgt]
  · have hng : ¬ (cU.getD 0 + 1 > 10) := by omega
    cases iU <;> simp [createUser, hp, truthy, hpne, hng]
  · simp [createAnnouncement, hgt]
  · have hng : ¬ (cA.getD 0 + 1 > 5) := by omega
    cases iA <;> simp [createAnnouncement, hng]
  · simp [createPost, hgt]
  · have hng : ¬ (cP.getD 0 + 1 > 5) := by omega
    cases iP <;> simp [createPost, hng]
  · simp [register, hev, hevt, hgt]
  · have hng : ¬ (cR.getD 0 + 1 > 60) := by omega
    cases iR <;> simp [register, hev, hevt, hng]

/-- Witness for C3-amended: within the ceilings, the inserts of
create-user and register are attempted with the expected rows. -/
theorem create_ceiling_amended_witness :
    getField demoCreateBody "password" = some (.jStr "pw")
    ∧ DbEff.insertRows "users"
        [removeField demoCreateBody "password"
          ++ [("password", .jStr (demoHash "pw"))]]
        ∈ (createUser demoHash demoCreateBody (.ok (some 0)) (.ok [])).2
    ∧ DbEff.insertRows "registered_emails" [[("email", .jStr "e@x.y")]]
        ∈ (register demoRegisterBody (.ok (some 0)) (.ok [])).2 := by
  have h := create_ceiling_amended demoHash demoCreateBody [] [] demoRegisterBody
    (some 0) (some 0) (some 0) (some 0) (.ok []) (.ok []) (.ok []) (.ok [])
    "pw" (.jStr "e@x.y") rfl (by decide) rfl rfl
  exact ⟨rfl, h.1.2 (by norm_num), h.2.2.2.2 (by norm_num)⟩

/-- C6 counterexample: an update-user request with the empty-string
password passes the truthiness guard unhashed — the update sent to the
database carries the submitted plaintext "" in the password column, not
a hash of it. -/
theorem update_password_plaintext_counterexample :
    (updateUser demoHash [("id", .jNum 1), ("password", .jStr "")] (.ok [])).2
      = [DbEff.updateRows "users" (some (.jNum 1)) [("password", .jStr "")]]
    ∧ demoHash "" ≠ "" :=
  ⟨rfl, by decide⟩

/-- C6 amended: create-user always persists the hash of the submitted
password, and update-user persists the hash whenever the submitted
password is a truthy (non-empty) string; an empty-string password is
forwarded unhashed by update-user. -/
theorem password_hashed_before_persist
    (hash : String → String) (body ubody : Obj)
    (countR : Except ErrMsg (Option Nat)) (insR updR : Except ErrMsg (List Obj))
    (p q : String)
    (hp : getField body "password" = some (.jStr p)) (hpne : p ≠ "")
    (hq : getField (removeField ubody "id") "password" = some (.jStr q))
    (hqne : q ≠ "") :
    (∀ t rows, DbEff.insertRows t rows ∈ (createUser hash body countR insR).2 →
        ∀ r ∈ rows, getField r "password" = some (.jStr (hash p)))
    ∧ (∀ t i ud, DbEff.updateRows t i ud ∈ (updateUser hash ubody updR).2 →
        getField ud "password" = some (.jStr (hash q))) := by
  constructor
  · intro t rows hmem r hr
    have hrow : rows
        = [removeField body "password" ++ [("password", .jStr (hash p))]] := by
      cases countR with
      | error m => simp [createUser, hp, truthy, hpne] at hmem
      | ok c =>
        by_cases hgt : c.getD 0 + 1 > 10
        · simp [createUser, hp, truthy, hpne, hgt] at hmem
        · cases insR <;> simp [createUser, hp, truthy, hpne, hgt] at hmem <;>
            exact hmem.2
    subst hrow
    rw [List.mem_singleton] at hr
    subst hr
    rw [getField_append_right _ _ _ (getField_removeField_self body "password")]
    simp [getField]
  · intro t i ud hmem
    by_cases hid : truthy (getField ubody "id") = true
    · have hud : ud
          = setField (removeField ubody "id") "password" (.jStr (hash q)) := by
        simp only [updateUser, hid, hq] at hmem
        cases updR <;> simp [truthy, hqne] at hmem <;> exact hmem.2.2
      subst hud
      rw [getField_setField_self]
    · rw [Bool.not_eq_true] at hid
      simp only [updateUser, hid] at hmem
      simp at hmem

/-- Witness for C6-amended at a concrete update carrying password "pw". -/
theorem password_hashed_before_persist_witness :
    getField
        (setField [("password", .jStr "pw")] "password"
          (.jStr (demoHash "pw")))
        "password" = some (.jStr (demoHash "pw")) := by
  have h := password_hashed_before_persist demoHash demoCreateBody
    [("id", .jNum 1), ("password", .jStr "pw")]
    (.ok (some 0)) (.ok []) (.ok []) "pw" "pw" rfl (by decide) rfl (by decide)
  exact h.2 "users" (some (.jNum 1)) _ (List.mem_singleton.mpr rfl)

/-- C8: a bulk create-users request whose array has an element without a
truthy password throws during the hashing step — before the count query
and the insert — so no database call is issued and no HTTP response is
sent at all. -/
theorem bulk_create_missing_password_throws
    (hash : String → String) (users : List JsVal)
    (countR : Except ErrMsg (Option Nat)) (insR : Except ErrMsg (List Obj))
    (h : ∃ u ∈ users, truthy (getProp u "password") = false) :
    (∃ m, (createUsers hash (.jArr users) countR insR).1 = .thrown m)
    ∧ (createUsers hash (.jArr users) countR insR).2 = [] := by
  obtain ⟨u, hu, hbad⟩ := h
  cases hh : hashUsers hash users with
  | error m =>
    exact ⟨⟨m, by simp [createUsers, hh]⟩, by simp [createUsers, hh]⟩
  | ok l =>
    have htr := hashUsers_ok_all_truthy hash users l hh u hu
    rw [htr] at hbad
    cases hbad

/-- Witness for C8: the second element of `demoBadUsersArr` has no
password, so the bulk create throws with no effects. -/
theorem bulk_create_missing_password_throws_witness :
    (∃ u ∈ demoBadUsersArr, truthy (getProp u "password") = false)
    ∧ (∃ m, (createUsers demoHash (.jArr demoBadUsersArr)
              (.ok (some 0)) (.ok [])).1 = .thrown m)
    ∧ (createUsers demoHash (.jArr demoBadUsersArr)
        (.ok (some 0)) (.ok [])).2 = [] := by
  have hex : ∃ u ∈ demoBadUsersArr, truthy (getProp u "password") = false :=
    ⟨.jObj [("email", .jStr "b")], List.Mem.tail _ (List.Mem.head _), rfl⟩
  have h := bulk_create_missing_password_throws demoHash demoBadUsersArr
    (.ok (some 0)) (.ok []) hex
  exact ⟨hex, h.1, h.2⟩

/-- C4: with the pre-insert count query reporting the table's true size,
every create operation keeps the table at or below its ceiling — any rows
a create handler asks to insert fit under the ceiling together with the
existing rows — and bulk create-users answers 400 whenever count + n
exceeds 10. -/
theorem create_preserves_ceiling
    (hash : String → String) (pre : List Obj)
    (bU bA bP bR : Obj) (users : List JsVal)
    (iU iUs iA iP iR : Except ErrMsg (List Obj)) :
    (pre.length ≤ 10 → ∀ rows,
        DbEff.insertRows "users" rows
          ∈ (createUser hash bU (.ok (some pre.length)) iU).2 →
        (pre ++ rows).length ≤ 10)
    ∧ (pre.length ≤ 10 → ∀ rows,
        DbEff.insertRows "users" rows
          ∈ (createUsers hash (.jArr users) (.ok (some pre.length)) iUs).2 →
        (pre ++ rows).length ≤ 10)
    ∧ (pre.length + users.length > 10 → ∀ l, hashUsers hash users = .ok l →
        (createUsers hash (.jArr users) (.ok (some pre.length)) iUs).1
          = .resp (.err 400 ⟨"Total users cannot exceed 10."⟩))
    ∧ (pre.length ≤ 5 → ∀ rows,
        DbEff.insertRows "announcements" rows
          ∈ (createAnnouncement bA (.ok (some pre.length)) iA).2 →
        (pre ++ rows).length ≤ 5)
    ∧ (pre.length ≤ 5 → ∀ rows,
        DbEff.insertRows "content_posts" rows
          ∈ (createPost bP (.ok (some pre.length)) iP).2 →
        (pre ++ rows).length ≤ 5)
    ∧ (pre.length ≤ 60 → ∀ rows,
        DbEff.insertRows "registered_emails" rows
          ∈ (register bR (.ok (some pre.length)) iR).2 →
        (pre ++ rows).length ≤ 60) := by
  refine ⟨fun _ rows hmem => ?_, fun _ rows hmem => ?_, fun hgt l hl => ?_,
    fun _ rows hmem => ?_, fun _ rows hmem => ?_, fun _ rows hmem => ?_⟩
  · obtain ⟨hlen, hng⟩ :=
      createUser_insert_rows hash bU (some pre.length) iU _ rows hmem
    simp only [List.length_append, hlen]
    simp only [Option.getD_some] at hng
    omega
  · obtain ⟨hlen, hng⟩ :=
      createUsers_insert_rows hash users (some pre.length) iUs _ rows hmem
    simp only [List.length_append, hlen]
    simp only [Option.getD_some] at hng
    omega
  · simp [createUsers, hl, hgt]
  · obtain ⟨hlen, hng⟩ :=
      createAnnouncement_insert_rows bA (some pre.length) iA _ rows hmem
    simp only [List.length_append, hlen]
    simp only [Option.getD_some] at hng
    omega
  · obtain ⟨hlen, hng⟩ :=
      createPost_insert_rows bP (some pre.length) iP _ rows hmem
    simp only [List.length_append, hlen]
    simp only [Option.getD_some] at hng
    omega
  · obtain ⟨hlen, hng⟩ :=
      register_insert_rows bR (some pre.length) iR _ rows hmem
    simp only [List.length_append, hlen]
    simp only [Option.getD_some] at hng
    omega

/-- Witness for C4: starting from an empty users table, the single row
create-user inserts keeps the table within the ceiling of 10. -/
theorem create_preserves_ceiling_witness :
    (([] : List Obj).length ≤ 10)
    ∧ (([] : List Obj)
        ++ [removeField demoCreateBody "password"
            ++ [("password", JsVal.jStr (demoHash "pw"))]]).length ≤ 10 := by
  have h := create_preserves_ceiling demoHash [] demoCreateBody [] []
    demoRegisterBody demoGoodUsersArr (.ok []) (.ok []) (.ok []) (.ok []) (.ok [])
  exact ⟨by norm_num, h.1 (by norm_num) _ (List.Mem.tail _ (List.Mem.head _))⟩

/-- C5: a failed backend call yields the error JSON with the status fixed
by the kind of call: 500 when the get-all read fails, 404 when the
get-by-id read fails, 400 when the insert, update or delete call fails,
and 401 for a failed login (unknown email or non-matching password). -/
theorem db_failure_status_mapping
    (m idp : String) (hash : String → String) (body ubody lbody : Obj)
    (c : Option Nat) (p e pw : String)
    (compare : String → String → Bool) (user : UserRow) :
    getAllUsers (.error m) = (.err 500 ⟨m⟩, [.selectAll "users"])
    ∧ getUser idp (.error m) = (.err 404 ⟨m⟩, [.selectOneById "users" idp])
    ∧ (getField body "password" = some (.jStr p) → p ≠ "" →
        ¬ (c.getD 0 + 1 > 10) →
        (createUser hash body (.ok c) (.error m)).1 = .resp (.err 400 ⟨m⟩))
    ∧ (truthy (getField ubody "id") = true →
        getField (removeField ubody "id") "password" = none →
        (updateUser hash ubody (.error m)).1 = .resp (.err 400 ⟨m⟩))
    ∧ deleteUser idp (.error m) = (.err 400 ⟨m⟩, [.deleteById "users" idp])
    ∧ (getField lbody "email" = some (.jStr e) → e ≠ "" →
        getField lbody "password" = some (.jStr pw) → pw ≠ "" →
        ((login compare lbody (.error m)).1
            = .resp (.err 401 ⟨"Invalid email or password."⟩)
          ∧ (compare pw user.password = false →
              (login compare lbody (.ok user)).1
                = .resp (.err 401 ⟨"Invalid email or password."⟩)))) := by
  refine ⟨rfl, rfl, fun hp hpne hng => ?_, fun hid hnp => ?_, rfl,
    fun he hene hpw hpwne => ⟨?_, fun hcmp => ?_⟩⟩
  · simp [createUser, hp, truthy, hpne, hng]
  · simp only [updateUser, hid, hnp]
    simp [truthy]
  · simp [login, he, hpw, truthy, hene, hpwne]
  · simp [login, he, hpw, truthy, hene, hpwne, hcmp]

/-- Witness for C5 with a concrete failing message for each call kind. -/
theorem db_failure_status_mapping_witness :
    getAllUsers (.error "boom") = (.err 500 ⟨"boom"⟩, [.selectAll "users"])
    ∧ (createUser demoHash demoCreateBody (.ok (some 0)) (.error "boom")).1
        = .resp (.err 400 ⟨"boom"⟩)
    ∧ (login demoCompare demoLoginBody (.error "boom")).1
        = .resp (.err 401 ⟨"Invalid email or password."⟩) := by
  have h := db_failure_status_mapping "boom" "1" demoHash demoCreateBody
    [("id", .jNum 1)] demoLoginBody (some 0) "pw" "a@b.c" "pw"
    demoCompare demoUser
  exact ⟨h.1, h.2.2.1 rfl (by decide) (by norm_num),
    (h.2.2.2.2.2 rfl (by decide) rfl (by decide)).1⟩

end ContentPublish

